import Mathlib

/-!
Verification of the UniPost generation pipeline (`src/texts/main.py`, class
`Texts`) and the settings cache reset (`src/pages/settings.py`, class
`Settings`), as a shallow embedding in Lean 4.

External collaborators (cache, embedding search, text-treatment/ranking,
LLM generation, approval dispatch, content persistence API) are modelled as
fields of an `Env` record of pure functions; Python string truthiness is
modelled by comparison with `""`, a Python `list` truthiness by comparison
with `[]`, and a raising persistence call by `Except`.  Relevance scores
(Python floats in `[0,1]`) are modelled as rationals.
-/

namespace UniPost

/-- A raw candidate text as returned by the embedding-search API (treated as
opaque by the orchestrator). -/
abbrev RawText := String

/-- A reference document as it appears inside `similar_texts`: a dict with
keys `title`, `type`, `index`, `text` (`src/texts/main.py` lines 210-211,
442-445). -/
structure RefDoc where
  title : String
  rtype : String
  index : String
  text : String
deriving Repr, DecidableEq

/-- One entry of `similar_texts`: a `(text, score)` pair
(`src/texts/main.py` lines 206-209). -/
abbrev ScoredRef := RefDoc × ℚ

/-- A truthy cached value returned by `get_cached_embeddings`; the code reads
`cached_embeddings.get('similar_texts', [])` (line 165).  A falsy return
(`None` or an empty dict) is modelled by `Option.none`. -/
structure CachedEmbeddings where
  similar_texts : List ScoredRef
deriving Repr, DecidableEq

/-- The record sent to the persistence API (`text_data`, lines 275-280). -/
structure TextData where
  theme : String
  platform : String
  content : String
  is_approved : Bool
deriving Repr, DecidableEq

/-- The arguments handed to `create_prompt_context` (lines 247-254). -/
structure PromptContext where
  user_topic : String
  references : List ScoredRef
  platform : String
  tone : String
  creativity_level : String
  length : String
deriving Repr, DecidableEq

/-- The dict stored in `st.session_state['last_generated']` (lines 613-622). -/
structure LastGenerated where
  text : String
  platform : String
  tone : String
  creativity : String
  length : String
  text_data : TextData
  approved : Bool
  theme : String
deriving Repr, DecidableEq

/-- Behaviour of the external collaborators during one pipeline run.
Mirrors the interface contracts of §6 of the spec and the call sites in
`_process_text_generation_improved`. -/
structure Env where
  get_cached_embeddings : String → Option CachedEmbeddings
  search_texts : String → List RawText
  treat_text_content : List RawText → List RawText
  find_similar_texts_via_api : String → List RawText → List ScoredRef
  generate_text_via_llm : PromptContext → Option String
  send_for_approval : String → String → Bool
  create_text : String → TextData → Except String String
  platforms : List (String × String)

/-- How many times each external collaborator was invoked during a run. -/
structure Calls where
  search_calls : Nat
  rank_calls : Nat
  cache_writes : Nat
  generate_calls : Nat
  approval_calls : Nat
  create_text_calls : Nat
deriving Repr, DecidableEq

def Calls.zero : Calls := ⟨0, 0, 0, 0, 0, 0⟩

/-- Data of a run that got past the generation step (lines 267-622). -/
structure SuccessData where
  generated_text : String
  approval_sent : Bool
  references : List ScoredRef
  text_data : TextData
  send_result : String
  persistence_failed : Bool
  last_generated : LastGenerated
deriving Repr, DecidableEq

/-- Outcome of one pipeline run: the early `return` on a falsy LLM output
(lines 263-265) is a `generationFailure`; otherwise the run completes. -/
inductive PipelineOutcome where
  | generationFailure
  | success (r : SuccessData)
deriving Repr, DecidableEq

def PipelineOutcome.isSuccess : PipelineOutcome → Bool
  | .generationFailure => false
  | .success _ => true

/-- Full observable behaviour of one call to
`_process_text_generation_improved`. -/
structure PipelineRun where
  similar_texts : List ScoredRef
  prompt_context : PromptContext
  calls : Calls
  outcome : PipelineOutcome
  session_last_generated : Option LastGenerated
deriving Repr, DecidableEq

/-- Python truthiness test on an `Optional[str]`: `None` and `""` are falsy. -/
def str_opt_falsy : Option String → Bool
  | none => true
  | some t => t == ""

/-- Steps 1-5 of the pipeline (lines 160-241): cache lookup, embedding
search, treatment, similarity ranking, cache write; produces the
`similar_texts` list together with the collaborator calls made so far. -/
def similar_texts_step (env : Env) (user_topic search_query : String) :
    List ScoredRef × Calls :=
  match env.get_cached_embeddings search_query with
  | some cached => (cached.similar_texts, Calls.zero)
  | none =>
      let raw_texts := env.search_texts search_query
      if raw_texts = [] then
        ([], { Calls.zero with search_calls := 1 })
      else
        let texts := env.treat_text_content raw_texts
        if texts = [] then
          ([], { Calls.zero with search_calls := 1 })
        else
          let sims := env.find_similar_texts_via_api user_topic texts
          if sims = [] then
            ([], { Calls.zero with search_calls := 1, rank_calls := 1 })
          else
            (sims,
              { Calls.zero with
                  search_calls := 1, rank_calls := 1, cache_writes := 1 })

/-- The context handed to `create_prompt_context` (lines 247-254); its
references are exactly the `similar_texts` produced by steps 1-5. -/
def pipeline_prompt_context (env : Env)
    (user_topic search_query platform tone creativity_level length : String) :
    PromptContext :=
  { user_topic := user_topic
    references := (similar_texts_step env user_topic search_query).1
    platform := platform
    tone := tone
    creativity_level := creativity_level
    length := length }

/-- The LLM output for the run (line 260). -/
def pipeline_generated (env : Env)
    (user_topic search_query platform tone creativity_level length : String) :
    Option String :=
  env.generate_text_via_llm
    (pipeline_prompt_context env user_topic search_query platform tone
      creativity_level length)

/-- `text_data` as built at lines 275-280: platform falls back to
`"GENERIC"` when falsy, `is_approved` is always `False`. -/
def mk_text_data (user_topic platform generated_text : String) : TextData :=
  { theme := user_topic
    platform := if platform = "" then "GENERIC" else platform
    content := generated_text
    is_approved := false }

/-- `platform_name` as computed at lines 308-309:
`PLATFORMS.get(platform, 'Genérico') if platform else 'Genérico'`. -/
def platform_display_name (env : Env) (platform : String) : String :=
  if platform = "" then "Genérico"
  else ((env.platforms.lookup platform).getD "Genérico")

/-- `send_result` after the persistence attempt: the API result on success,
the fixed error string set by the `except` handler (lines 283-292). -/
def pipeline_send_result (env : Env) (token : String) (d : TextData) :
    String :=
  match env.create_text token d with
  | .ok r => r
  | .error _ => "Erro ao registrar na API"

/-- Whether the persistence call raised (and was caught, lines 290-292). -/
def pipeline_persistence_failed (env : Env) (token : String) (d : TextData) :
    Bool :=
  match env.create_text token d with
  | .ok _ => false
  | .error _ => true

/-- The `st.session_state['last_generated']` dict written at lines 613-622;
its `approved` field is `approval_sent`, the approval-dispatch outcome. -/
def pipeline_last_generated (env : Env)
    (user_topic platform tone creativity_level length t : String) :
    LastGenerated :=
  { text := t
    platform := platform_display_name env platform
    tone := tone
    creativity := creativity_level
    length := length
    text_data := mk_text_data user_topic platform t
    approved := env.send_for_approval t user_topic
    theme := user_topic }

/-- All data of a run that got past the generation check with text `t`. -/
def pipeline_success_data (env : Env)
    (user_topic platform tone creativity_level length token t : String)
    (refs : List ScoredRef) : SuccessData :=
  { generated_text := t
    approval_sent := env.send_for_approval t user_topic
    references := refs
    text_data := mk_text_data user_topic platform t
    send_result :=
      pipeline_send_result env token (mk_text_data user_topic platform t)
    persistence_failed :=
      pipeline_persistence_failed env token
        (mk_text_data user_topic platform t)
    last_generated :=
      pipeline_last_generated env user_topic platform tone creativity_level
        length t }

/-- Shallow embedding of `Texts._process_text_generation_improved`
(`src/texts/main.py` lines 126-634), restricted to its observable effects:
collaborator calls, the produced result, and the session-state update. -/
def process_text_generation_improved (env : Env)
    (user_topic search_query platform tone creativity_level length
      token : String) : PipelineRun :=
  let step := similar_texts_step env user_topic search_query
  let prompt_context :=
    pipeline_prompt_context env user_topic search_query platform tone
      creativity_level length
  let calls1 : Calls := { step.2 with generate_calls := 1 }
  match pipeline_generated env user_topic search_query platform tone
      creativity_level length with
  | none =>
      { similar_texts := step.1
        prompt_context := prompt_context
        calls := calls1
        outcome := .generationFailure
        session_last_generated := none }
  | some t =>
      if t = "" then
        { similar_texts := step.1
          prompt_context := prompt_context
          calls := calls1
          outcome := .generationFailure
          session_last_generated := none }
      else
        { similar_texts := step.1
          prompt_context := prompt_context
          calls :=
            { calls1 with approval_calls := 1, create_text_calls := 1 }
          outcome := .success
            (pipeline_success_data env user_topic platform tone
              creativity_level length token t step.1)
          session_last_generated := some
            (pipeline_last_generated env user_topic platform tone
              creativity_level length t) }

/-- Python `str.strip()`: leading and trailing whitespace removed
(structurally recursive so that it evaluates on concrete strings). -/
def py_strip (s : String) : String :=
  String.mk
    (((s.data.dropWhile Char.isWhitespace).reverse.dropWhile
        Char.isWhitespace).reverse)

/-- `Texts.validate_topic` (`src/texts/main.py` lines 102-124). -/
def validate_topic (topic : String) : Bool × String :=
  if topic = "" ∨ (py_strip topic).length < 5 then (false, topic)
  else if 500 < (py_strip topic).length then (false, topic)
  else (true, py_strip topic)

/-- What the `create` flow does once the generate button is pressed
(lines 864-898): one of the three validation warnings, or the pipeline
invocation with its topic, query and platform-code arguments. -/
inductive CreateAction where
  | warnEmptyTopic
  | warnTooShort
  | warnTooLong
  | runPipeline (user_topic search_query platform : String)
deriving Repr, DecidableEq

def CreateAction.starts_run : CreateAction → Bool
  | .runPipeline _ _ _ => true
  | _ => false

/-- Shallow embedding of the post-button branch of `Texts.create`
(lines 864-898). -/
def create_on_generate (text_topic search_query selected_platform : String) :
    CreateAction :=
  if text_topic = "" ∨ py_strip text_topic = "" then .warnEmptyTopic
  else if (py_strip text_topic).length < 5 then .warnTooShort
  else if 500 < (py_strip text_topic).length then .warnTooLong
  else
    let query :=
      if search_query = "" then py_strip text_topic else search_query
    let platform_code :=
      if selected_platform ≠ "GENERIC" then selected_platform else ""
    .runPipeline (py_strip text_topic) query platform_code

/-! Post-library view (`Texts.render`, lines 1076-1133): gating of the
approve / reject API calls by the current approval flag, the user's
permissions, and the widget contract that a disabled button never fires. -/

/-- A Streamlit button returns `True` only when the user clicked it and it
is not disabled. -/
def st_button (clicked disabled : Bool) : Bool := clicked && !disabled

/-- `approve_disabled` at lines 1084-1086:
`is_approved or 'update' not in permissions`. -/
def approve_button_disabled (is_approved : Bool)
    (permissions : List String) : Bool :=
  is_approved || !(permissions.contains "update")

/-- `reject_disabled` at lines 1111-1113:
`not is_approved or 'update' not in permissions`. -/
def reject_button_disabled (is_approved : Bool)
    (permissions : List String) : Bool :=
  !is_approved || !(permissions.contains "update")

/-- Whether `TextsRequest().approve_text` is called for a card
(lines 1091-1104): only inside `if st.button(..., disabled=approve_disabled)`. -/
def approve_call_issued (clicked is_approved : Bool)
    (permissions : List String) : Bool :=
  st_button clicked (approve_button_disabled is_approved permissions)

/-- Whether `TextsRequest().reject_text` is called for a card
(lines 1118-1131): only inside `if st.button(..., disabled=reject_disabled)`. -/
def reject_call_issued (clicked is_approved : Bool)
    (permissions : List String) : Bool :=
  st_button clicked (reject_button_disabled is_approved permissions)

/-! Settings page cache reset (`src/pages/settings.py` lines 153-158). -/

/-- Session state as an association list of keys to values. -/
abbrev SessionState := List (String × String)

/-- Python `str.startswith(pre)` (structurally recursive over the
characters so that it evaluates on concrete strings). -/
def py_startswith (s pre : String) : Bool :=
  pre.data.isPrefixOf s.data

/-- The body of the "Limpar Cache" button handler (lines 154-156):
collect the keys starting with `'cached_'` and delete them. -/
def clear_cache_keys (session : SessionState) : SessionState :=
  let keys_to_remove :=
    (session.map Prod.fst).filter (fun k => py_startswith k "cached_")
  session.filter (fun kv => !(keys_to_remove.contains kv.1))

/-- Effect record of the handler; `settings.py` imports no cache/Redis
client and the handler touches only `st.session_state`, so the number of
external cache-store calls it makes is zero. -/
structure ClearCacheEffect where
  new_session : SessionState
  external_cache_calls : Nat
deriving Repr, DecidableEq

def clear_cache_op (session : SessionState) : ClearCacheEffect :=
  { new_session := clear_cache_keys session
    external_cache_calls := 0 }

/-! Ranking order model.  The similarity-ranking service
(`find_similar_texts_via_api`, in `services/text_generation_service.py`)
is not part of the sources under verification; only its callers are.  Its
ordering contract is therefore modelled from the spec. -/

/-- Modelled from the spec: helper of the stable descending sort —
`find_similar_texts_via_api` is missing from the sources; §4.1 of the spec
pins its output order ("references always sorted descending by score …;
ties broken by original discovery order (stable sort)").  An element is
inserted before the first element whose score is `≤` its own, so an
earlier-discovered element stays ahead of later ones with the same score. -/
def insert_by_score_desc (x : ScoredRef) :
    List ScoredRef → List ScoredRef
  | [] => [x]
  | y :: ys =>
      if y.2 ≤ x.2 then x :: y :: ys else y :: insert_by_score_desc x ys

/-- Modelled from the spec: the output order of the missing ranking service
`find_similar_texts_via_api` — a stable sort of the scored candidates by
descending relevance score. -/
def rank_by_score_desc : List ScoredRef → List ScoredRef
  | [] => []
  | x :: xs => insert_by_score_desc x (rank_by_score_desc xs)

/-- Sorted by descending relevance score. -/
def sorted_by_score_desc (l : List ScoredRef) : Prop :=
  l.Pairwise (fun a b => b.2 ≤ a.2)

/-- The top-3 preview slice `similar_texts[:3]` (lines 206-219). -/
def preview_top3 (similar_texts : List ScoredRef) : List ScoredRef :=
  similar_texts.take 3

/-- The top-5 reference slice `similar_texts[:5]` (lines 437-440). -/
def references_top5 (similar_texts : List ScoredRef) : List ScoredRef :=
  similar_texts.take 5

/-! Concrete collaborator environments used to evaluate the theorems on
closed inputs. -/

/-- A healthy environment: empty cache, empty search index, working LLM,
working persistence API. -/
def env_base : Env :=
  { get_cached_embeddings := fun _ => none
    search_texts := fun _ => []
    treat_text_content := fun ts => ts
    find_similar_texts_via_api := fun _ _ => []
    generate_text_via_llm := fun _ => some "Texto gerado pela IA."
    send_for_approval := fun _ _ => true
    create_text := fun _ _ => .ok "Registrado"
    platforms := [("LINKEDIN", "LinkedIn"), ("INSTAGRAM", "Instagram")] }

/-- An environment whose LLM returns a falsy (absent) output. -/
def env_gen_fail : Env :=
  { get_cached_embeddings := fun _ => none
    search_texts := fun _ => []
    treat_text_content := fun ts => ts
    find_similar_texts_via_api := fun _ _ => []
    generate_text_via_llm := fun _ => none
    send_for_approval := fun _ _ => true
    create_text := fun _ _ => .ok "Registrado"
    platforms := [("LINKEDIN", "LinkedIn")] }

/-- An environment whose embedding search finds raw texts but whose
similarity ranking returns nothing for them. -/
def env_rank_empty : Env :=
  { get_cached_embeddings := fun _ => none
    search_texts := fun _ => ["texto bruto"]
    treat_text_content := fun ts => ts
    find_similar_texts_via_api := fun _ _ => []
    generate_text_via_llm := fun _ => some "Texto gerado pela IA."
    send_for_approval := fun _ _ => true
    create_text := fun _ _ => .ok "Registrado"
    platforms := [("LINKEDIN", "LinkedIn")] }

/-- Three cached references for the query, highest score first. -/
def cached_demo : CachedEmbeddings :=
  { similar_texts :=
      [(⟨"Doc A", "Artigo", "idx1", "conteudo a"⟩, (9 : ℚ) / 10),
       (⟨"Doc B", "Artigo", "idx1", "conteudo b"⟩, (7 : ℚ) / 10),
       (⟨"Doc C", "Post", "idx2", "conteudo c"⟩, (2 : ℚ) / 5)] }

/-- An environment with a warm cache for every query. -/
def env_cache_hit : Env :=
  { get_cached_embeddings := fun _ => some cached_demo
    search_texts := fun _ => ["texto bruto"]
    treat_text_content := fun ts => ts
    find_similar_texts_via_api := fun _ _ => []
    generate_text_via_llm := fun _ => some "Texto gerado pela IA."
    send_for_approval := fun _ _ => true
    create_text := fun _ _ => .ok "Registrado"
    platforms := [("LINKEDIN", "LinkedIn")] }

/-- An environment whose persistence API always raises. -/
def env_persist_fail : Env :=
  { get_cached_embeddings := fun _ => none
    search_texts := fun _ => []
    treat_text_content := fun ts => ts
    find_similar_texts_via_api := fun _ _ => []
    generate_text_via_llm := fun _ => some "Texto gerado pela IA."
    send_for_approval := fun _ _ => true
    create_text := fun _ _ => .error "conexao recusada"
    platforms := [("LINKEDIN", "LinkedIn")] }

/-! Shared lemmas about the pipeline embedding. -/

/-- Steps 1-5 never touch the generation, approval or persistence clients. -/
theorem similar_texts_step_late_calls (env : Env) (u q : String) :
    (similar_texts_step env u q).2.generate_calls = 0 ∧
    (similar_texts_step env u q).2.approval_calls = 0 ∧
    (similar_texts_step env u q).2.create_text_calls = 0 := by
  unfold similar_texts_step
  cases env.get_cached_embeddings q
  · dsimp only
    split
    · exact ⟨rfl, rfl, rfl⟩
    · split
      · exact ⟨rfl, rfl, rfl⟩
      · split
        · exact ⟨rfl, rfl, rfl⟩
        · exact ⟨rfl, rfl, rfl⟩
  · exact ⟨rfl, rfl, rfl⟩

/-- On a falsy LLM output the run is exactly the failure record. -/
theorem process_eq_of_gen_falsy (env : Env)
    (u q plat tn cr ln tok : String)
    (h : str_opt_falsy (pipeline_generated env u q plat tn cr ln) = true) :
    process_text_generation_improved env u q plat tn cr ln tok =
      { similar_texts := (similar_texts_step env u q).1
        prompt_context := pipeline_prompt_context env u q plat tn cr ln
        calls := { (similar_texts_step env u q).2 with generate_calls := 1 }
        outcome := .generationFailure
        session_last_generated := none } := by
  unfold process_text_generation_improved
  rcases hg : pipeline_generated env u q plat tn cr ln with _ | t
  · rfl
  · rw [hg] at h
    have ht : t = "" := by
      simpa [str_opt_falsy] using h
    subst ht
    rfl

/-- On a truthy LLM output the run is exactly the success record. -/
theorem process_eq_of_gen_some (env : Env)
    (u q plat tn cr ln tok t : String)
    (hg : pipeline_generated env u q plat tn cr ln = some t)
    (ht : ¬ t = "") :
    process_text_generation_improved env u q plat tn cr ln tok =
      { similar_texts := (similar_texts_step env u q).1
        prompt_context := pipeline_prompt_context env u q plat tn cr ln
        calls := { (similar_texts_step env u q).2 with
                     generate_calls := 1, approval_calls := 1,
                     create_text_calls := 1 }
        outcome := .success
          (pipeline_success_data env u plat tn cr ln tok t
            (similar_texts_step env u q).1)
        session_last_generated := some
          (pipeline_last_generated env u plat tn cr ln t) } := by
  unfold process_text_generation_improved
  rw [hg]
  dsimp only
  rw [if_neg ht]

/-- `similar_texts` of a run is always the output of steps 1-5. -/
theorem process_similar_texts (env : Env) (u q plat tn cr ln tok : String) :
    (process_text_generation_improved env u q plat tn cr ln tok).similar_texts
      = (similar_texts_step env u q).1 := by
  unfold process_text_generation_improved
  rcases pipeline_generated env u q plat tn cr ln with _ | t
  · rfl
  · dsimp only
    split <;> rfl

/-- The prompt context of a run is always the assembled one. -/
theorem process_prompt_context (env : Env) (u q plat tn cr ln tok : String) :
    (process_text_generation_improved env u q plat tn cr ln
        tok).prompt_context
      = pipeline_prompt_context env u q plat tn cr ln := by
  unfold process_text_generation_improved
  rcases pipeline_generated env u q plat tn cr ln with _ | t
  · rfl
  · dsimp only
    split <;> rfl

/-- The number of embedding-search calls of a run is decided in steps 1-5. -/
theorem process_search_calls (env : Env) (u q plat tn cr ln tok : String) :
    (process_text_generation_improved env u q plat tn cr ln
        tok).calls.search_calls
      = (similar_texts_step env u q).2.search_calls := by
  unfold process_text_generation_improved
  rcases pipeline_generated env u q plat tn cr ln with _ | t
  · rfl
  · dsimp only
    split <;> rfl

/-- The generation client is invoked exactly once per run. -/
theorem process_generate_calls (env : Env) (u q plat tn cr ln tok : String) :
    (process_text_generation_improved env u q plat tn cr ln
        tok).calls.generate_calls = 1 := by
  unfold process_text_generation_improved
  rcases pipeline_generated env u q plat tn cr ln with _ | t
  · rfl
  · dsimp only
    split <;> rfl

/-- C1: if the Generation Client output is empty or falsy, the run ends as
a `GenerationFailure`, `create_text` is never called, approval dispatch is
never attempted, and session state is not updated. -/
theorem generation_failure_aborts_pipeline (env : Env)
    (u q plat tn cr ln tok : String)
    (h : str_opt_falsy (pipeline_generated env u q plat tn cr ln) = true) :
    (process_text_generation_improved env u q plat tn cr ln tok).outcome
        = .generationFailure ∧
    (process_text_generation_improved env u q plat tn cr ln
        tok).calls.create_text_calls = 0 ∧
    (process_text_generation_improved env u q plat tn cr ln
        tok).calls.approval_calls = 0 ∧
    (process_text_generation_improved env u q plat tn cr ln
        tok).session_last_generated = none := by
  rw [process_eq_of_gen_falsy env u q plat tn cr ln tok h]
  rcases similar_texts_step_late_calls env u q with ⟨_, h2, h3⟩
  exact ⟨rfl, h3, h2, rfl⟩

/-- C1 witness: with an LLM that returns nothing, a concrete run fails and
makes no approval or persistence call. -/
theorem generation_failure_aborts_pipeline_witness :
    (process_text_generation_improved env_gen_fail
        "Beneficios da energia solar" "energia solar" "" "informal"
        "equilibrado" "Exato (300 palavras)" "tok").outcome
        = .generationFailure ∧
    (process_text_generation_improved env_gen_fail
        "Beneficios da energia solar" "energia solar" "" "informal"
        "equilibrado" "Exato (300 palavras)"
        "tok").calls.create_text_calls = 0 ∧
    (process_text_generation_improved env_gen_fail
        "Beneficios da energia solar" "energia solar" "" "informal"
        "equilibrado" "Exato (300 palavras)"
        "tok").calls.approval_calls = 0 ∧
    (process_text_generation_improved env_gen_fail
        "Beneficios da energia solar" "energia solar" "" "informal"
        "equilibrado" "Exato (300 palavras)"
        "tok").session_last_generated = none :=
  generation_failure_aborts_pipeline env_gen_fail
    "Beneficios da energia solar" "energia solar" "" "informal"
    "equilibrado" "Exato (300 palavras)" "tok" rfl

/-- C3: when generation succeeded but the persistence call raises, the
error is absorbed into `send_result`, the run still completes as a
success, and the session-state record carries the generated text with its
approval flag equal to the dispatch outcome. -/
theorem persistence_failure_nonfatal (env : Env)
    (u q plat tn cr ln tok t msg : String)
    (hg : pipeline_generated env u q plat tn cr ln = some t)
    (ht : ¬ t = "")
    (hcr : env.create_text tok (mk_text_data u plat t) = .error msg) :
    ∃ r, (process_text_generation_improved env u q plat tn cr ln
          tok).outcome = .success r ∧
      r.generated_text = t ∧
      r.send_result = "Erro ao registrar na API" ∧
      r.persistence_failed = true ∧
      r.last_generated.text = t ∧
      r.last_generated.approved = env.send_for_approval t u ∧
      (process_text_generation_improved env u q plat tn cr ln
          tok).session_last_generated = some r.last_generated := by
  rw [process_eq_of_gen_some env u q plat tn cr ln tok t hg ht]
  refine ⟨_, rfl, rfl, ?_, ?_, rfl, rfl, rfl⟩
  · show pipeline_send_result env tok (mk_text_data u plat t) = _
    unfold pipeline_send_result
    rw [hcr]
  · show pipeline_persistence_failed env tok (mk_text_data u plat t) = true
    unfold pipeline_persistence_failed
    rw [hcr]

/-- C3 witness: a concrete run against a persistence API that always
raises still succeeds and stores the generated text with `approved`
reflecting the dispatch outcome. -/
theorem persistence_failure_nonfatal_witness :
    ∃ r, (process_text_generation_improved env_persist_fail
          "Beneficios da energia solar" "energia solar" "LINKEDIN"
          "informal" "equilibrado" "Exato (300 palavras)" "tok").outcome
          = .success r ∧
      r.generated_text = "Texto gerado pela IA." ∧
      r.send_result = "Erro ao registrar na API" ∧
      r.persistence_failed = true ∧
      r.last_generated.text = "Texto gerado pela IA." ∧
      r.last_generated.approved =
        env_persist_fail.send_for_approval "Texto gerado pela IA."
          "Beneficios da energia solar" ∧
      (process_text_generation_improved env_persist_fail
          "Beneficios da energia solar" "energia solar" "LINKEDIN"
          "informal" "equilibrado" "Exato (300 palavras)"
          "tok").session_last_generated = some r.last_generated :=
  persistence_failure_nonfatal env_persist_fail
    "Beneficios da energia solar" "energia solar" "LINKEDIN" "informal"
    "equilibrado" "Exato (300 palavras)" "tok" "Texto gerado pela IA."
    "conexao recusada" rfl (by decide) rfl

/-- C5: on a cache miss where the embedding search returns nothing, or
the returned texts normalize to nothing, or the similarity ranking yields
nothing for them, the run degrades instead of failing: the reference list
is empty, the Generation Client is still called, and a truthy generation
yields a success whose references are empty. -/
theorem empty_search_degrades_gracefully (env : Env)
    (u q plat tn cr ln tok t : String)
    (hc : env.get_cached_embeddings q = none)
    (hs : env.search_texts q = [] ∨
      env.treat_text_content (env.search_texts q) = [] ∨
      env.find_similar_texts_via_api u
        (env.treat_text_content (env.search_texts q)) = [])
    (hg : pipeline_generated env u q plat tn cr ln = some t)
    (ht : ¬ t = "") :
    (process_text_generation_improved env u q plat tn cr ln
        tok).similar_texts = [] ∧
    (process_text_generation_improved env u q plat tn cr ln
        tok).prompt_context.references = [] ∧
    (process_text_generation_improved env u q plat tn cr ln
        tok).calls.generate_calls = 1 ∧
    ∃ r, (process_text_generation_improved env u q plat tn cr ln
          tok).outcome = .success r ∧ r.references = [] := by
  have hstep : (similar_texts_step env u q).1 = [] := by
    unfold similar_texts_step
    rw [hc]
    dsimp only
    rcases hs with hs | hs | hs
    · rw [if_pos hs]
    · by_cases h1 : env.search_texts q = []
      · rw [if_pos h1]
      · rw [if_neg h1, if_pos hs]
    · by_cases h1 : env.search_texts q = []
      · rw [if_pos h1]
      · rw [if_neg h1]
        by_cases h2 : env.treat_text_content (env.search_texts q) = []
        · rw [if_pos h2]
        · rw [if_neg h2, if_pos hs]
  refine ⟨?_, ?_, process_generate_calls env u q plat tn cr ln tok, ?_⟩
  · rw [process_similar_texts]
    exact hstep
  · rw [process_prompt_context]
    exact hstep
  · rw [process_eq_of_gen_some env u q plat tn cr ln tok t hg ht]
    exact ⟨_, rfl, hstep⟩

/-- C5 witness: a concrete run whose search finds a raw text but whose
ranking yields nothing for it still calls the LLM and succeeds with zero
references. -/
theorem empty_search_degrades_gracefully_witness :
    (process_text_generation_improved env_rank_empty
        "Beneficios da energia solar para o meio ambiente"
        "energia solar" "" "informal" "equilibrado"
        "Exato (300 palavras)" "tok").similar_texts = [] ∧
    (process_text_generation_improved env_rank_empty
        "Beneficios da energia solar para o meio ambiente"
        "energia solar" "" "informal" "equilibrado"
        "Exato (300 palavras)" "tok").prompt_context.references = [] ∧
    (process_text_generation_improved env_rank_empty
        "Beneficios da energia solar para o meio ambiente"
        "energia solar" "" "informal" "equilibrado"
        "Exato (300 palavras)" "tok").calls.generate_calls = 1 ∧
    ∃ r, (process_text_generation_improved env_rank_empty
          "Beneficios da energia solar para o meio ambiente"
          "energia solar" "" "informal" "equilibrado"
          "Exato (300 palavras)" "tok").outcome = .success r ∧
      r.references = [] :=
  empty_search_degrades_gracefully env_rank_empty
    "Beneficios da energia solar para o meio ambiente" "energia solar"
    "" "informal" "equilibrado" "Exato (300 palavras)" "tok"
    "Texto gerado pela IA." rfl (Or.inr (Or.inr rfl)) rfl (by decide)

/-- C6: a truthy cached value short-circuits steps 2-5: the embedding
search is never invoked and the cached `similar_texts` feed the prompt
directly. -/
theorem cache_hit_skips_search (env : Env)
    (u q plat tn cr ln tok : String) (cached : CachedEmbeddings)
    (h : env.get_cached_embeddings q = some cached) :
    (process_text_generation_improved env u q plat tn cr ln
        tok).similar_texts = cached.similar_texts ∧
    (process_text_generation_improved env u q plat tn cr ln
        tok).prompt_context.references = cached.similar_texts ∧
    (process_text_generation_improved env u q plat tn cr ln
        tok).calls.search_calls = 0 := by
  have hstep : similar_texts_step env u q =
      (cached.similar_texts, Calls.zero) := by
    unfold similar_texts_step
    rw [h]
  refine ⟨?_, ?_, ?_⟩
  · rw [process_similar_texts, hstep]
  · rw [process_prompt_context]
    show (similar_texts_step env u q).1 = cached.similar_texts
    rw [hstep]
  · rw [process_search_calls, hstep]
    rfl

/-- C6 witness: with three cached references for the query
"sustentabilidade" the search client is never invoked. -/
theorem cache_hit_skips_search_witness :
    (process_text_generation_improved env_cache_hit
        "Sustentabilidade nas empresas" "sustentabilidade" "" "informal"
        "equilibrado" "Exato (300 palavras)" "tok").similar_texts
        = cached_demo.similar_texts ∧
    (process_text_generation_improved env_cache_hit
        "Sustentabilidade nas empresas" "sustentabilidade" "" "informal"
        "equilibrado" "Exato (300 palavras)"
        "tok").prompt_context.references = cached_demo.similar_texts ∧
    (process_text_generation_improved env_cache_hit
        "Sustentabilidade nas empresas" "sustentabilidade" "" "informal"
        "equilibrado" "Exato (300 palavras)"
        "tok").calls.search_calls = 0 :=
  cache_hit_skips_search env_cache_hit "Sustentabilidade nas empresas"
    "sustentabilidade" "" "informal" "equilibrado" "Exato (300 palavras)"
    "tok" cached_demo rfl

/-- C7: on every successful generation the persisted record is exactly
the topic as theme, the platform (defaulting to "GENERIC" when falsy),
the generated text, and `is_approved = false` — whatever the
approval-dispatch outcome was. -/
theorem persisted_record_fields (env : Env)
    (u q plat tn cr ln tok t : String)
    (hg : pipeline_generated env u q plat tn cr ln = some t)
    (ht : ¬ t = "") :
    ∃ r, (process_text_generation_improved env u q plat tn cr ln
          tok).outcome = .success r ∧
      r.text_data.theme = u ∧
      r.text_data.platform = (if plat = "" then "GENERIC" else plat) ∧
      r.text_data.content = t ∧
      r.text_data.is_approved = false := by
  rw [process_eq_of_gen_some env u q plat tn cr ln tok t hg ht]
  exact ⟨_, rfl, rfl, rfl, rfl, rfl⟩

/-- C7 witness: a concrete run with no platform selected persists
`platform = "GENERIC"` and `is_approved = false`. -/
theorem persisted_record_fields_witness :
    ∃ r, (process_text_generation_improved env_base
          "Beneficios da energia solar" "energia solar" "" "informal"
          "equilibrado" "Exato (300 palavras)" "tok").outcome
          = .success r ∧
      r.text_data.theme = "Beneficios da energia solar" ∧
      r.text_data.platform =
        (if ("" : String) = "" then "GENERIC" else "") ∧
      r.text_data.content = "Texto gerado pela IA." ∧
      r.text_data.is_approved = false :=
  persisted_record_fields env_base "Beneficios da energia solar"
    "energia solar" "" "informal" "equilibrado" "Exato (300 palavras)"
    "tok" "Texto gerado pela IA." rfl (by decide)

/-- C4: a topic whose stripped length is below 5 or above 500 is rejected
by `validate_topic` (returning `False` with the topic) and the create flow
never starts the pipeline for it. -/
theorem invalid_topic_never_starts_pipeline (topic q plat : String)
    (h : (py_strip topic).length < 5 ∨ 500 < (py_strip topic).length) :
    validate_topic topic = (false, topic) ∧
    (create_on_generate topic q plat).starts_run = false := by
  constructor
  · unfold validate_topic
    rcases h with h | h
    · rw [if_pos (Or.inr h)]
    · have h5 : ¬(topic = "" ∨ (py_strip topic).length < 5) := by
        rintro (rfl | hlt)
        · exact absurd h (by decide)
        · omega
      rw [if_neg h5, if_pos h]
  · unfold create_on_generate
    rcases h with h | h
    · by_cases h0 : topic = "" ∨ py_strip topic = ""
      · rw [if_pos h0]
        rfl
      · rw [if_neg h0, if_pos h]
        rfl
    · have h0 : ¬(topic = "" ∨ py_strip topic = "") := by
        rintro (rfl | he)
        · exact absurd h (by decide)
        · rw [he] at h
          exact absurd h (by decide)
      have h5 : ¬((py_strip topic).length < 5) := by omega
      rw [if_neg h0, if_neg h5, if_pos h]
      rfl

/-- C4 witness: the three-character topic "abc" is rejected and the
pipeline is not started. -/
theorem invalid_topic_never_starts_pipeline_witness :
    validate_topic "abc" = (false, "abc") ∧
    (create_on_generate "abc" "energia" "GENERIC").starts_run = false :=
  invalid_topic_never_starts_pipeline "abc" "energia" "GENERIC"
    (Or.inl (by decide))

/-- C10: once validation passes, the pipeline is started with the stripped
topic standing in for a falsy search query, and a non-empty search query
is passed through unchanged. -/
theorem search_query_defaults_to_topic (topic q plat : String)
    (h5 : 5 ≤ (py_strip topic).length)
    (h500 : (py_strip topic).length ≤ 500) :
    create_on_generate topic q plat =
      .runPipeline (py_strip topic)
        (if q = "" then py_strip topic else q)
        (if plat ≠ "GENERIC" then plat else "") := by
  unfold create_on_generate
  have h0 : ¬(topic = "" ∨ py_strip topic = "") := by
    rintro (rfl | he)
    · exact absurd h5 (by decide)
    · rw [he] at h5
      exact absurd h5 (by decide)
  rw [if_neg h0, if_neg (by omega : ¬((py_strip topic).length < 5)),
    if_neg (by omega : ¬(500 < (py_strip topic).length))]

/-- C10 witness: with an empty search query the stripped topic is used as
the query; the platform code passes through. -/
theorem search_query_defaults_to_topic_witness :
    create_on_generate " Energia solar " "" "LINKEDIN" =
      .runPipeline (py_strip " Energia solar ")
        (if ("" : String) = "" then py_strip " Energia solar " else "")
        (if ("LINKEDIN" : String) ≠ "GENERIC" then "LINKEDIN" else "") :=
  search_query_defaults_to_topic " Energia solar " "" "LINKEDIN"
    (by decide) (by decide)

/-- C8: in the post-library view, an `approve_text` call can only be
issued for a record that is not yet approved by a user holding the
`update` permission, and a `reject_text` call only for a currently
approved record by a user holding the `update` permission. -/
theorem approve_reject_call_gating (clicked approved : Bool)
    (perms : List String) :
    (approve_call_issued clicked approved perms = true →
      approved = false ∧ perms.contains "update" = true) ∧
    (reject_call_issued clicked approved perms = true →
      approved = true ∧ perms.contains "update" = true) := by
  constructor
  · intro h
    cases approved <;> cases clicked <;>
      cases hc : perms.contains "update" <;>
      simp_all [approve_call_issued, st_button, approve_button_disabled]
  · intro h
    cases approved <;> cases clicked <;>
      cases hc : perms.contains "update" <;>
      simp_all [reject_call_issued, st_button, reject_button_disabled]

/-- C8 witness: clicking approve on a pending record and reject on an
approved record, with `update` permission, is admissible. -/
theorem approve_reject_call_gating_witness :
    ((false : Bool) = false ∧
      (["update"] : List String).contains "update" = true) ∧
    ((true : Bool) = true ∧
      (["update"] : List String).contains "update" = true) :=
  ⟨(approve_reject_call_gating true false ["update"]).1 (by decide),
   (approve_reject_call_gating true true ["update"]).2 (by decide)⟩

/-- C9: the manual cache clear removes from session state exactly the
keys with the `cached_` prefix — every prefixed entry is gone, every
other entry is kept in place — and makes no call to the external cache
store. -/
theorem clear_cache_frame_property (s : SessionState) :
    (clear_cache_op s).new_session =
      s.filter (fun kv => !(py_startswith kv.1 "cached_")) ∧
    (∀ kv, kv ∈ (clear_cache_op s).new_session ↔
      kv ∈ s ∧ py_startswith kv.1 "cached_" = false) ∧
    (clear_cache_op s).external_cache_calls = 0 := by
  have hmain : clear_cache_keys s =
      s.filter (fun kv => !(py_startswith kv.1 "cached_")) := by
    unfold clear_cache_keys
    apply List.filter_congr
    intro kv hkv
    have hmem : kv.1 ∈ s.map Prod.fst := List.mem_map_of_mem Prod.fst hkv
    by_cases hsw : py_startswith kv.1 "cached_" <;>
      simp [hsw, List.mem_filter, hmem]
  refine ⟨hmain, ?_, rfl⟩
  intro kv
  show kv ∈ clear_cache_keys s ↔ _
  rw [hmain]
  simp [List.mem_filter]

/-! Lemmas about the spec-modelled ranking order. -/

theorem mem_insert_by_score_desc {b x : ScoredRef} {l : List ScoredRef} :
    b ∈ insert_by_score_desc x l ↔ b = x ∨ b ∈ l := by
  induction l with
  | nil => simp [insert_by_score_desc]
  | cons y ys ih =>
    unfold insert_by_score_desc
    by_cases hxy : y.2 ≤ x.2
    · rw [if_pos hxy]
      simp [List.mem_cons]
    · rw [if_neg hxy]
      rw [List.mem_cons, ih, List.mem_cons]
      tauto

theorem insert_by_score_desc_sorted (x : ScoredRef) (l : List ScoredRef)
    (h : sorted_by_score_desc l) :
    sorted_by_score_desc (insert_by_score_desc x l) := by
  induction l with
  | nil =>
    unfold insert_by_score_desc sorted_by_score_desc
    simp
  | cons y ys ih =>
    unfold sorted_by_score_desc at h
    rw [List.pairwise_cons] at h
    obtain ⟨hy, hys⟩ := h
    unfold insert_by_score_desc
    by_cases hxy : y.2 ≤ x.2
    · rw [if_pos hxy]
      unfold sorted_by_score_desc
      rw [List.pairwise_cons]
      constructor
      · intro b hb
        rcases List.mem_cons.mp hb with rfl | hb
        · exact hxy
        · exact le_trans (hy b hb) hxy
      · exact List.pairwise_cons.mpr ⟨hy, hys⟩
    · rw [if_neg hxy]
      unfold sorted_by_score_desc
      rw [List.pairwise_cons]
      constructor
      · intro b hb
        rcases mem_insert_by_score_desc.mp hb with rfl | hb
        · exact (not_le.mp hxy).le
        · exact hy b hb
      · exact ih hys

theorem rank_by_score_desc_sorted (l : List ScoredRef) :
    sorted_by_score_desc (rank_by_score_desc l) := by
  induction l with
  | nil => exact List.Pairwise.nil
  | cons x xs ih => exact insert_by_score_desc_sorted x _ ih

theorem filter_insert_of_score_ne (x : ScoredRef) (l : List ScoredRef)
    (s : ℚ) (hx : ¬ x.2 = s) :
    (insert_by_score_desc x l).filter (fun r => decide (r.2 = s)) =
      l.filter (fun r => decide (r.2 = s)) := by
  induction l with
  | nil => simp [insert_by_score_desc, hx]
  | cons y ys ih =>
    unfold insert_by_score_desc
    by_cases hxy : y.2 ≤ x.2
    · rw [if_pos hxy]
      simp [List.filter_cons, hx]
    · rw [if_neg hxy]
      by_cases hy : y.2 = s <;> simp [List.filter_cons, hy, ih]

theorem filter_insert_of_score_eq (x : ScoredRef) (l : List ScoredRef)
    (s : ℚ) (hx : x.2 = s) :
    (insert_by_score_desc x l).filter (fun r => decide (r.2 = s)) =
      x :: l.filter (fun r => decide (r.2 = s)) := by
  induction l with
  | nil => simp [insert_by_score_desc, hx]
  | cons y ys ih =>
    unfold insert_by_score_desc
    by_cases hxy : y.2 ≤ x.2
    · rw [if_pos hxy]
      simp [List.filter_cons, hx]
    · rw [if_neg hxy]
      have hy : ¬ y.2 = s := by
        intro he
        exact hxy (he.trans hx.symm).le
      simp [List.filter_cons, hy, ih]

theorem rank_by_score_desc_stable (l : List ScoredRef) (s : ℚ) :
    (rank_by_score_desc l).filter (fun r => decide (r.2 = s)) =
      l.filter (fun r => decide (r.2 = s)) := by
  induction l with
  | nil => rfl
  | cons x xs ih =>
    unfold rank_by_score_desc
    by_cases hx : x.2 = s
    · rw [filter_insert_of_score_eq x _ s hx, ih]
      simp [List.filter_cons, hx]
    · rw [filter_insert_of_score_ne x _ s hx, ih]
      simp [List.filter_cons, hx]

/-- C2: the ranking output is sorted descending by relevance score, the
top-3 and top-5 display slices taken from it stay sorted descending, and
references with equal scores keep their original discovery order (the
sub-sequence at each fixed score is unchanged). -/
theorem ranking_slices_sorted_and_stable (cands : List ScoredRef) :
    sorted_by_score_desc (rank_by_score_desc cands) ∧
    sorted_by_score_desc (preview_top3 (rank_by_score_desc cands)) ∧
    sorted_by_score_desc (references_top5 (rank_by_score_desc cands)) ∧
    ∀ s : ℚ,
      (rank_by_score_desc cands).filter (fun r => decide (r.2 = s)) =
        cands.filter (fun r => decide (r.2 = s)) := by
  refine ⟨rank_by_score_desc_sorted cands, ?_, ?_,
    rank_by_score_desc_stable cands⟩
  · exact List.Pairwise.sublist (List.take_sublist 3 _)
      (rank_by_score_desc_sorted cands)
  · exact List.Pairwise.sublist (List.take_sublist 5 _)
      (rank_by_score_desc_sorted cands)

end UniPost
